import Mathlib

/-!
Shallow embedding of `src/app.py` (movie-data-exploration dashboard).

Documents are association lists of field name to value, as MongoDB
documents.  Numeric values are rationals.  The database holds the two
collections `movies` and `reduced_movies`.  The callback
`update_table_and_graph` is embedded with the random-noise streams as
explicit parameters and with the database operations it issues recorded
as an explicit trace; the pandas/plotly failure on a missing DataFrame
column is embedded as returning `none`.
-/

namespace MovieApp


/-- A MongoDB field value: a number or a string. -/
inductive Value where
  | num (q : ℚ)
  | str (s : String)
  deriving DecidableEq, Repr

/-- A MongoDB document: an association list of field name to value. -/
abbrev Document := List (String × Value)

/-- The five slider values passed to `update_table_and_graph`
(`min_vote_count`, the `vote_averages` pair and the `runtimes` pair,
unpacked as in lines 107-108 of `app.py`). -/
structure Bounds where
  min_vote_count : ℚ
  min_vote_average : ℚ
  max_vote_average : ℚ
  min_runtime : ℚ
  max_runtime : ℚ
  deriving DecidableEq, Repr

/-- `default_values` (app.py lines 49-57), fields in the insertion order
of the `OrderedDict`. -/
def default_values : Bounds :=
  { min_vote_count := 50
    min_vote_average := 0
    max_vote_average := 10
    min_runtime := 60
    max_runtime := 280 }

/-- Look up field `k` in document `d` (first occurrence). -/
def getField (d : Document) (k : String) : Option Value :=
  (d.find? (fun kv => kv.1 == k)).map (fun kv => kv.2)

/-- Look up field `k` in document `d` when it holds a number. -/
def getNum (d : Document) (k : String) : Option ℚ :=
  match getField d k with
  | some (Value.num q) => some q
  | _ => none

/-- MongoDB comparison-operator semantics on a scalar field: the field
must be present, numeric, and satisfy the predicate. -/
def numSat (o : Option ℚ) (p : ℚ → Bool) : Bool :=
  match o with
  | some q => p q
  | none => false

/-- The `query` document built at app.py lines 123-127:
`runtime` between `min_runtime` and `max_runtime` (`$gte`/`$lte`),
`vote_count` at least `min_vote_count` (`$gte`), and `vote_average`
between `min_vote_average` and `max_vote_average` (`$gte`/`$lte`). -/
def matchesQuery (b : Bounds) (d : Document) : Bool :=
  numSat (getNum d "runtime") (fun r => decide (b.min_runtime ≤ r) && decide (r ≤ b.max_runtime))
    && numSat (getNum d "vote_count") (fun c => decide (b.min_vote_count ≤ c))
    && numSat (getNum d "vote_average")
      (fun v => decide (b.min_vote_average ≤ v) && decide (v ≤ b.max_vote_average))

/-- The `find` projection `{"_id": 0, "genres": 0, "production_countries": 0}`
(app.py line 128): drop exactly these three fields. -/
def projectDoc (d : Document) : Document :=
  d.filter (fun kv => !(kv.1 == "_id" || kv.1 == "genres" || kv.1 == "production_countries"))

/-- `collection.find(query, projection)` (app.py line 128) on a
collection embedded as a list of documents. -/
def mongoFind (c : List Document) (b : Bounds) : List Document :=
  (c.filter (matchesQuery b)).map projectDoc

/-- The database `mycinema` with its two collections `movies` and
`reduced_movies` (app.py lines 24-26). -/
structure DB where
  movies : List Document
  reduced_movies : List Document
  deriving Repr

/-- Collection of `db` named `n`. -/
def getColl (db : DB) (n : String) : List Document :=
  if n = "movies" then db.movies
  else if n = "reduced_movies" then db.reduced_movies
  else []

/-- Replace the collection named `n` of `db`. -/
def setColl (db : DB) (n : String) (c : List Document) : DB :=
  if n = "movies" then { db with movies := c }
  else if n = "reduced_movies" then { db with reduced_movies := c }
  else db

/-- The five-line conditional at app.py lines 110-116 deciding whether
the reduced collection is used. -/
def usesReduced (b : Bounds) : Bool :=
  decide (default_values.min_runtime ≤ b.min_runtime)
    && decide (b.max_runtime ≤ default_values.max_runtime)
    && decide (default_values.min_vote_count ≤ b.min_vote_count)
    && decide (default_values.min_vote_average ≤ b.min_vote_average)
    && decide (b.max_vote_average ≤ default_values.max_vote_average)

/-- Name of the collection `update_table_and_graph` queries
(app.py lines 110-121). -/
def collName (b : Bounds) : String :=
  if usesReduced b then "reduced_movies" else "movies"

/-- Database operations of the driver, reads and writes. -/
inductive MongoOp where
  | findOp (collName : String) (b : Bounds)
  | insertOne (collName : String) (d : Document)
  | deleteMany (collName : String) (b : Bounds)
  deriving Repr

/-- An operation is a pure read. -/
def isReadOp : MongoOp → Bool
  | MongoOp.findOp _ _ => true
  | _ => false

/-- Run one database operation: the possibly changed database plus the
documents returned (empty for writes). -/
def applyOp (db : DB) : MongoOp → DB × List Document
  | MongoOp.findOp n b => (db, mongoFind (getColl db n) b)
  | MongoOp.insertOne n d => (setColl db n (getColl db n ++ [d]), [])
  | MongoOp.deleteMany n b =>
      (setColl db n ((getColl db n).filter (fun d => !matchesQuery b d)), [])

/-- Run a list of database operations left to right, collecting each
operation's returned documents. -/
def execOps (db : DB) : List MongoOp → DB × List (List Document)
  | [] => (db, [])
  | op :: rest =>
      let s := applyOp db op
      let t := execOps s.1 rest
      (t.1, s.2 :: t.2)

/-- The database operations one call of `update_table_and_graph` issues:
the single `collection.find(query, ...)` of app.py line 128. -/
def update_ops (b : Bounds) : List MongoOp :=
  [MongoOp.findOp (collName b) b]

/-- Whether the DataFrame built from `docs` has column `k`
(`pd.DataFrame` makes a column for each key occurring in some row). -/
def hasColumn (docs : List Document) (k : String) : Bool :=
  docs.any (fun d => d.any (fun kv => kv.1 == k))

/-- Columns the callback body reads from the DataFrame: `vote_average`
and `runtime` for the jitter (app.py lines 132-137), `movie_title` and
`year_released` for the scatter-plot hover (lines 143-151).  If one is
missing - in particular when the query result is empty and the DataFrame
has no columns at all - the corresponding line raises. -/
def requiredColumns (docs : List Document) : Bool :=
  hasColumn docs "vote_average" && hasColumn docs "runtime"
    && hasColumn docs "movie_title" && hasColumn docs "year_released"

/-- One marker of the scatter plot: its plotted coordinates and the
fields shown on hover (`hover_data` flags of app.py lines 144-151:
`movie_title`, `year_released`, `runtime` and `vote_average` shown, the
jittered columns hidden). -/
structure ScatterPoint where
  x : Option ℚ
  y : Option ℚ
  hover_movie_title : Option Value
  hover_year_released : Option Value
  hover_runtime : Option Value
  hover_vote_average : Option Value
  deriving DecidableEq, Repr

/-- The point plotted for document `d`, with noise samples `nva` (for
the `vote_average` jitter, factor 0.02) and `nrt` (for the `runtime`
jitter, factor 0.3), app.py lines 132-137 and 139-154. -/
def mkPoint (nva nrt : ℚ) (d : Document) : ScatterPoint :=
  { x := (getNum d "runtime").map (fun r => r + 3/10 * nrt)
    y := (getNum d "vote_average").map (fun v => v + 2/100 * nva)
    hover_movie_title := getField d "movie_title"
    hover_year_released := getField d "year_released"
    hover_runtime := getField d "runtime"
    hover_vote_average := getField d "vote_average" }

/-- A scatter figure: its list of points. -/
abbrev Figure := List ScatterPoint

/-- The figure `px.scatter` builds (app.py lines 139-154): one point per
row of the DataFrame, `np.random.randn` samples given as the explicit
streams `nva` (first call, line 134) and `nrt` (second call, line 136). -/
def makeFigure (docs : List Document) (nva nrt : ℕ → ℚ) : Figure :=
  docs.enum.map (fun p => mkPoint (nva p.1) (nrt p.1) p.2)

/-- The callback `update_table_and_graph` (app.py lines 106-156), with
the database threaded explicitly and the two `np.random.randn` streams
as parameters.  Returns the changed database plus, when the body runs to
the end, the figure and the table data; `none` embeds the raised
exception when a required DataFrame column is missing. -/
def update_table_and_graph (db : DB) (b : Bounds) (nva nrt : ℕ → ℚ) :
    DB × Option (Figure × List Document) :=
  let r := execOps db (update_ops b)
  let query_result_list := r.2.headD []
  if requiredColumns query_result_list then
    (r.1, some (makeFigure query_result_list nva nrt, query_result_list))
  else
    (r.1, none)

/-- The callback `reset_filters` (app.py lines 94-96): unpack
`default_values.values()` in insertion order and return the three slider
values. -/
def reset_filters (_n : ℕ) : ℚ × (ℚ × ℚ) × (ℚ × ℚ) :=
  (default_values.min_vote_count,
    (default_values.min_vote_average, default_values.max_vote_average),
    (default_values.min_runtime, default_values.max_runtime))

/-- The reduced collection as the spec describes it: the full collection
restricted to the default filter bounds. -/
def reducedOf (movies : List Document) : List Document :=
  movies.filter (matchesQuery default_values)


def sampleRaw : Document :=
  [("_id", Value.num 1), ("movie_title", Value.str "Heat"),
   ("year_released", Value.num 1995), ("runtime", Value.num 100),
   ("vote_count", Value.num 200), ("vote_average", Value.num 7),
   ("genres", Value.str "crime"), ("production_countries", Value.str "US")]

def sampleProjected : Document :=
  [("movie_title", Value.str "Heat"), ("year_released", Value.num 1995),
   ("runtime", Value.num 100), ("vote_count", Value.num 200),
   ("vote_average", Value.num 7)]

def sampleDB : DB := { movies := [sampleRaw], reduced_movies := [sampleRaw] }

def emptyDB : DB := { movies := [], reduced_movies := [] }

def sampleTable : List Document := [sampleProjected]

def zeroStream : ℕ → ℚ := fun _ => 0

def sampleFig : Figure := makeFigure sampleTable zeroStream zeroStream


lemma numSat_eq_true_iff (o : Option ℚ) (p : ℚ → Bool) :
    numSat o p = true ↔ ∃ q, o = some q ∧ p q = true := by
  cases o <;> simp [numSat]

lemma matchesQuery_eq_true_iff (b : Bounds) (d : Document) :
    matchesQuery b d = true ↔
      ∃ r, getNum d "runtime" = some r ∧
      ∃ c, getNum d "vote_count" = some c ∧
      ∃ v, getNum d "vote_average" = some v ∧
        (b.min_runtime ≤ r ∧ r ≤ b.max_runtime ∧ b.min_vote_count ≤ c ∧
          b.min_vote_average ≤ v ∧ v ≤ b.max_vote_average) := by
  simp [matchesQuery, numSat_eq_true_iff]
  aesop

lemma usesReduced_iff (b : Bounds) :
    usesReduced b = true ↔
      (60 ≤ b.min_runtime ∧ b.max_runtime ≤ 280 ∧ 50 ≤ b.min_vote_count ∧
        0 ≤ b.min_vote_average ∧ b.max_vote_average ≤ 10) := by
  simp [usesReduced, default_values, and_assoc]

lemma matchesQuery_default_of (b : Bounds) (d : Document)
    (hb : usesReduced b = true) (hd : matchesQuery b d = true) :
    matchesQuery default_values d = true := by
  rw [usesReduced_iff] at hb
  rw [matchesQuery_eq_true_iff] at hd ⊢
  obtain ⟨r, hr, c, hc, v, hv, h1, h2, h3, h4, h5⟩ := hd
  obtain ⟨g1, g2, g3, g4, g5⟩ := hb
  refine ⟨r, hr, c, hc, v, hv, ?_⟩
  simp only [default_values]
  refine ⟨by linarith, by linarith, by linarith, by linarith, by linarith⟩

lemma update_table_and_graph_eq (db : DB) (b : Bounds) (nva nrt : ℕ → ℚ) :
    update_table_and_graph db b nva nrt =
      (db, if requiredColumns (mongoFind (getColl db (collName b)) b) then
        some (makeFigure (mongoFind (getColl db (collName b)) b) nva nrt,
          mongoFind (getColl db (collName b)) b)
      else none) := by
  simp only [update_table_and_graph, update_ops, execOps, applyOp, List.headD]
  split <;> rfl


/-- C1: `update_table_and_graph` queries the reduced collection iff all
bounds are inside the default range, otherwise the full `movies`
collection. -/
theorem C1_collection_choice (b : Bounds) :
    (collName b = "reduced_movies" ∨ collName b = "movies") ∧
    (collName b = "reduced_movies" ↔
      (60 ≤ b.min_runtime ∧ b.max_runtime ≤ 280 ∧ 50 ≤ b.min_vote_count ∧
        0 ≤ b.min_vote_average ∧ b.max_vote_average ≤ 10)) := by
  rw [← usesReduced_iff]
  unfold collName
  by_cases h : usesReduced b = true <;> simp [h]

/-- C2: if the reduced collection is the full collection restricted to
the default bounds, then on bounds within the default range the query
returns the same documents from either collection. -/
theorem C2_fast_path_same_result (movies : List Document) (b : Bounds)
    (h : usesReduced b = true) :
    mongoFind (reducedOf movies) b = mongoFind movies b := by
  unfold mongoFind reducedOf
  rw [List.filter_filter]
  congr 1
  apply List.filter_congr
  intro d _
  cases hd : matchesQuery b d
  · simp [hd]
  · simp [hd, matchesQuery_default_of b d h hd]

/-- C3: the query predicate is exactly the slider bounds: a document
with numeric fields r, c, v matches iff r is between the runtime bounds,
c at least the vote-count bound, and v between the vote-average bounds;
no other condition applies. -/
theorem C3_query_is_sliders (b : Bounds) (d : Document) (r c v : ℚ)
    (hr : getNum d "runtime" = some r) (hc : getNum d "vote_count" = some c)
    (hv : getNum d "vote_average" = some v) :
    matchesQuery b d = true ↔
      (b.min_runtime ≤ r ∧ r ≤ b.max_runtime ∧ b.min_vote_count ≤ c ∧
        b.min_vote_average ≤ v ∧ v ≤ b.max_vote_average) := by
  rw [matchesQuery_eq_true_iff]
  simp [hr, hc, hv]

/-- C4: for every click count, `reset_filters` returns the sliders to
50, [0, 10] and [60, 280]. -/
theorem C4_reset_to_defaults :
    ∀ n : ℕ, reset_filters n = (50, (0, 10), (60, 280)) :=
  fun _ => rfl

/-- C7: a call of `update_table_and_graph` leaves the database
unchanged: it issues exactly one operation, a read (`find`). -/
theorem C7_read_only (db : DB) (b : Bounds) (nva nrt : ℕ → ℚ) :
    (update_table_and_graph db b nva nrt).1 = db ∧
    (update_ops b).length = 1 ∧ (update_ops b).all isReadOp = true := by
  refine ⟨?_, rfl, rfl⟩
  rw [update_table_and_graph_eq]

/-- C8: when the query matches no documents, `update_table_and_graph`
does not return normally (the jitter line raises on the empty
DataFrame). -/
theorem C8_empty_result_raises (db : DB) (b : Bounds) (nva nrt : ℕ → ℚ)
    (h : mongoFind (getColl db (collName b)) b = []) :
    (update_table_and_graph db b nva nrt).2 = none := by
  rw [update_table_and_graph_eq]
  simp [h, requiredColumns, hasColumn]

/-- C10: the table data output of `update_table_and_graph` does not
depend on the random noise streams; only the figure does. -/
theorem C10_table_noise_free (db : DB) (b : Bounds) (nva nrt mva mrt : ℕ → ℚ) :
    ((update_table_and_graph db b nva nrt).2).map (fun p => p.2) =
      ((update_table_and_graph db b mva mrt).2).map (fun p => p.2) := by
  rw [update_table_and_graph_eq, update_table_and_graph_eq]
  by_cases hc : requiredColumns (mongoFind (getColl db (collName b)) b) = true <;> simp [hc]


lemma update_snd_some (db : DB) (b : Bounds) (nva nrt : ℕ → ℚ)
    (fig : Figure) (table : List Document)
    (h : (update_table_and_graph db b nva nrt).2 = some (fig, table)) :
    table = mongoFind (getColl db (collName b)) b ∧
      fig = makeFigure table nva nrt := by
  rw [update_table_and_graph_eq] at h
  by_cases hc : requiredColumns (mongoFind (getColl db (collName b)) b) = true
  · simp [hc] at h
    obtain ⟨h1, h2⟩ := h
    subst h2
    exact ⟨rfl, h1.symm⟩
  · simp [hc] at h

lemma getField_of_getNum (d : Document) (k : String) (q : ℚ)
    (h : getNum d k = some q) : getField d k = some (Value.num q) := by
  unfold getNum at h
  split at h
  · simp at h; subst h; assumption
  · simp at h

lemma makeFigure_get (docs : List Document) (nva nrt : ℕ → ℚ) (i : ℕ)
    (d : Document) (hd : docs[i]? = some d) :
    (makeFigure docs nva nrt)[i]? = some (mkPoint (nva i) (nrt i) d) := by
  unfold makeFigure
  rw [List.getElem?_map, List.getElem?_enum, hd]
  rfl

/-- C5: each scatter point plots runtime plus 0.3 times its noise sample
and vote_average plus 0.02 times its noise sample, while the hover shows
the un-jittered runtime and vote_average. -/
theorem C5_jittered_coordinates (db : DB) (b : Bounds) (nva nrt : ℕ → ℚ)
    (fig : Figure) (table : List Document)
    (h : (update_table_and_graph db b nva nrt).2 = some (fig, table))
    (i : ℕ) (d : Document) (hd : table[i]? = some d) (r v : ℚ)
    (hr : getNum d "runtime" = some r) (hv : getNum d "vote_average" = some v) :
    ∃ p : ScatterPoint, fig[i]? = some p ∧
      p.x = some (r + 3/10 * nrt i) ∧ p.y = some (v + 2/100 * nva i) ∧
      p.hover_runtime = some (Value.num r) ∧
      p.hover_vote_average = some (Value.num v) := by
  obtain ⟨-, hfig⟩ := update_snd_some db b nva nrt fig table h
  refine ⟨mkPoint (nva i) (nrt i) d, ?_, ?_, ?_, ?_, ?_⟩
  · rw [hfig]; exact makeFigure_get table nva nrt i d hd
  · simp [mkPoint, hr]
  · simp [mkPoint, hv]
  · simp [mkPoint, getField_of_getNum d "runtime" r hr]
  · simp [mkPoint, getField_of_getNum d "vote_average" v hv]

/-- C6: table and figure come from the same single query result: the
table is exactly the list the one find call returned, and the figure is
built from exactly those documents. -/
theorem C6_same_query_result (db : DB) (b : Bounds) (nva nrt : ℕ → ℚ)
    (fig : Figure) (table : List Document)
    (h : (update_table_and_graph db b nva nrt).2 = some (fig, table)) :
    table = mongoFind (getColl db (collName b)) b ∧
      fig = makeFigure table nva nrt :=
  update_snd_some db b nva nrt fig table h

lemma getField_projectDoc_none (d0 : Document) (k : String)
    (hk : (k == "_id" || k == "genres" || k == "production_countries") = true) :
    getField (projectDoc d0) k = none := by
  unfold getField projectDoc
  rw [Option.map_eq_none', List.find?_eq_none]
  intro kv hkv
  rw [List.mem_filter] at hkv
  have h2 := hkv.2
  simp only [Bool.not_eq_true', Bool.or_eq_false_iff, beq_eq_false_iff_ne] at h2
  simp only [beq_iff_eq]
  intro hkvk
  subst hkvk
  simp only [beq_iff_eq, Bool.or_eq_true] at hk
  tauto

/-- C9: documents returned as table data never contain the fields _id,
genres or production_countries, which the find projection excludes. -/
theorem C9_projection_excludes (db : DB) (b : Bounds) (nva nrt : ℕ → ℚ)
    (fig : Figure) (table : List Document)
    (h : (update_table_and_graph db b nva nrt).2 = some (fig, table))
    (d : Document) (hd : d ∈ table) :
    getField d "_id" = none ∧ getField d "genres" = none ∧
      getField d "production_countries" = none := by
  obtain ⟨htab, -⟩ := update_snd_some db b nva nrt fig table h
  rw [htab] at hd
  unfold mongoFind at hd
  rw [List.mem_map] at hd
  obtain ⟨d0, -, hd0⟩ := hd
  subst hd0
  exact ⟨getField_projectDoc_none d0 "_id" (by decide),
    getField_projectDoc_none d0 "genres" (by decide),
    getField_projectDoc_none d0 "production_countries" (by decide)⟩

theorem C2_witness :
    usesReduced default_values = true ∧
      mongoFind (reducedOf [sampleRaw]) default_values =
        mongoFind [sampleRaw] default_values :=
  ⟨by decide, C2_fast_path_same_result [sampleRaw] default_values (by decide)⟩

theorem C3_witness :
    (getNum sampleRaw "runtime" = some 100 ∧
      getNum sampleRaw "vote_count" = some 200 ∧
      getNum sampleRaw "vote_average" = some 7) ∧
    (matchesQuery default_values sampleRaw = true ↔
      (default_values.min_runtime ≤ 100 ∧ (100 : ℚ) ≤ default_values.max_runtime ∧
        default_values.min_vote_count ≤ 200 ∧ default_values.min_vote_average ≤ 7 ∧
        (7 : ℚ) ≤ default_values.max_vote_average)) :=
  ⟨⟨by decide, by decide, by decide⟩,
    C3_query_is_sliders default_values sampleRaw 100 200 7 (by decide) (by decide) (by decide)⟩

theorem C5_witness :
    ((update_table_and_graph sampleDB default_values zeroStream zeroStream).2 =
        some (sampleFig, sampleTable) ∧
      sampleTable[0]? = some sampleProjected ∧
      getNum sampleProjected "runtime" = some 100 ∧
      getNum sampleProjected "vote_average" = some 7) ∧
    (∃ p : ScatterPoint, sampleFig[0]? = some p ∧
      p.x = some (100 + 3/10 * zeroStream 0) ∧
      p.y = some (7 + 2/100 * zeroStream 0) ∧
      p.hover_runtime = some (Value.num 100) ∧
      p.hover_vote_average = some (Value.num 7)) :=
  ⟨⟨by rfl, by decide, by decide, by decide⟩,
    C5_jittered_coordinates sampleDB default_values zeroStream zeroStream sampleFig
      sampleTable (by rfl) 0 sampleProjected (by decide) 100 7 (by decide) (by decide)⟩

theorem C6_witness :
    (update_table_and_graph sampleDB default_values zeroStream zeroStream).2 =
        some (sampleFig, sampleTable) ∧
      (sampleTable = mongoFind (getColl sampleDB (collName default_values)) default_values ∧
        sampleFig = makeFigure sampleTable zeroStream zeroStream) :=
  ⟨by rfl,
    C6_same_query_result sampleDB default_values zeroStream zeroStream sampleFig
      sampleTable (by rfl)⟩

theorem C8_witness :
    mongoFind (getColl emptyDB (collName default_values)) default_values = [] ∧
      (update_table_and_graph emptyDB default_values zeroStream zeroStream).2 = none :=
  ⟨by decide,
    C8_empty_result_raises emptyDB default_values zeroStream zeroStream (by decide)⟩

theorem C9_witness :
    ((update_table_and_graph sampleDB default_values zeroStream zeroStream).2 =
        some (sampleFig, sampleTable) ∧
      sampleProjected ∈ sampleTable) ∧
    (getField sampleProjected "_id" = none ∧
      getField sampleProjected "genres" = none ∧
      getField sampleProjected "production_countries" = none) :=
  ⟨⟨by rfl, by decide⟩,
    C9_projection_excludes sampleDB default_values zeroStream zeroStream sampleFig
      sampleTable (by rfl) sampleProjected (by decide)⟩

end MovieApp
